import Mathlib

/-!
Shallow embedding of the PiCast UPnP/DLNA audio renderer (Python) and
verification of its specification claims.

Python strings that undergo character-level processing are modelled as
`List Char`; strings used only as opaque values or for equality tests are
modelled as Lean `String`.  Python floats are modelled as exact rationals
(`ℚ`), with an explicit constructor for the infinities where the source
tests for them.  Fallible Python code (raised exceptions) is modelled with
`Except String`.
-/

namespace PiCast

/-! ## Python string primitives (str modelled as List Char) -/

/-- Character is an ASCII decimal digit (Python `str.isdigit` on ASCII,
and the digit test implicit in `int()` / `float()` parsing). -/
def isDigitCh (c : Char) : Bool := 48 ≤ c.toNat && c.toNat ≤ 57

/-- Character is Python whitespace (the set stripped by `str.strip()` and
by `int()` / `float()` conversion). -/
def isSpaceCh (c : Char) : Bool := c.toNat == 32 || (9 ≤ c.toNat && c.toNat ≤ 13)

/-- Model of Python `str.strip()`: remove leading and trailing whitespace. -/
def pyStrip (s : List Char) : List Char :=
  ((s.dropWhile isSpaceCh).reverse.dropWhile isSpaceCh).reverse

/-- Model of Python `str.split(sep)` for a one-character separator:
always returns at least one (possibly empty) part. -/
def pySplit (sep : Char) : List Char → List (List Char)
  | [] => [[]]
  | c :: rest =>
    match pySplit sep rest with
    | [] => [[]]
    | h :: t => if c = sep then [] :: h :: t else (c :: h) :: t

/-- Model of Python `str.split` with the two-character separator CR LF,
as used on received SSDP datagrams. -/
def splitCRLF : List Char → List (List Char)
  | [] => [[]]
  | '\r' :: '\n' :: rest => [] :: splitCRLF rest
  | c :: rest =>
    match splitCRLF rest with
    | [] => [[]]
    | h :: t => (c :: h) :: t

/-- Numeric value of a list of ASCII digit characters, most significant
first (the accumulation performed by Python `int()` on a digit string). -/
def chVal (s : List Char) : ℕ := s.foldl (fun a c => 10 * a + (c.toNat - 48)) 0

/-- Digit-run parser underlying `pyInt?`: a non-empty all-digit string. -/
def pyDigits? (s : List Char) : Option ℕ :=
  if s = [] then none
  else if s.all isDigitCh then some (chVal s) else none

/-- Model of Python `int(str)`: strip whitespace, optional sign, then a
non-empty digit run.  (Underscore digit separators are not modelled; no
caller of this program produces them.) -/
def pyInt? (s : List Char) : Option ℤ :=
  match pyStrip s with
  | [] => none
  | c :: r =>
    if c = '-' then (pyDigits? r).map (fun n => -(n : ℤ))
    else if c = '+' then (pyDigits? r).map (fun n => (n : ℤ))
    else (pyDigits? (c :: r)).map (fun n => (n : ℤ))

/-- Magnitude part of `pyFloat?`: digits with at most one decimal point
and at least one digit. -/
def pyFloatMag? (s : List Char) : Option ℚ :=
  match pySplit '.' s with
  | [a] =>
    if a = [] then none
    else if a.all isDigitCh then some ((chVal a : ℤ) : ℚ) else none
  | [a, b] =>
    if a = [] ∧ b = [] then none
    else if a.all isDigitCh ∧ b.all isDigitCh then
      some ((chVal a : ℚ) + (chVal b : ℚ) / ((10 : ℚ) ^ b.length))
    else none
  | _ => none

/-- Model of Python `float(str)` for plain decimal literals: whitespace
stripped, optional sign, digits with at most one decimal point.  Exponent
notation and the `inf` / `nan` literals are not modelled; the program only
feeds this conversion colon-free fragments of SOAP time strings. -/
def pyFloat? (s : List Char) : Option ℚ :=
  match pyStrip s with
  | [] => none
  | c :: r =>
    if c = '-' then (pyFloatMag? r).map Neg.neg
    else if c = '+' then pyFloatMag? r
    else pyFloatMag? (c :: r)

/-- The ASCII character for the decimal digit d (valid for d < 10). -/
def digitChar (d : ℕ) : Char := Char.ofNat (48 + d)

/-- Least-significant-first decimal digits of n, with explicit fuel so the
definition is structurally recursive and kernel-evaluable. -/
def natToCharsAux : ℕ → ℕ → List Char
  | 0, _ => []
  | fuel + 1, n =>
    if n = 0 then [] else digitChar (n % 10) :: natToCharsAux fuel (n / 10)

/-- Model of Python `str(n)` for a natural number. -/
def natToChars (n : ℕ) : List Char :=
  if n = 0 then ['0'] else (natToCharsAux n n).reverse

/-- Model of Python `str(i)` for an integer. -/
def pyStr (i : ℤ) : List Char :=
  if i < 0 then '-' :: natToChars (-i).toNat else natToChars i.toNat

/-- Model of the Python format spec `:02d`: pad the decimal rendering to
width two with leading zeros (as used here only on non-negative values). -/
def pad2 (i : ℤ) : List Char :=
  let s := pyStr i
  List.replicate (2 - s.length) '0' ++ s

/-! ## Python float arithmetic used by the time codec -/

/-- Model of Python `int(x)` on a float: truncation toward zero. -/
def pyIntT (q : ℚ) : ℤ := if q < 0 then -⌊-q⌋ else ⌊q⌋

/-- Model of Python float floor division `x // y` (exact over ℚ). -/
def pyFloorDiv (a b : ℚ) : ℚ := (⌊a / b⌋ : ℚ)

/-- Model of Python float modulo `x % y` (exact over ℚ). -/
def pyMod (a b : ℚ) : ℚ := a - b * (⌊a / b⌋ : ℚ)

/-- A Python float input to `format_time`: a finite rational or an
infinity.  (`format_time` applied to NaN would raise in the source and is
outside every claim.) -/
inductive PyFloatV where
  | fin (q : ℚ)
  | inf
  | neginf
deriving DecidableEq

/-! ## Time-Code Codec (src/services/soap_handler.py) -/

/-- Body of `format_time` past its guard, for a non-negative finite value:
hours = int(seconds // 3600), minutes = int((seconds % 3600) // 60),
secs = int(seconds % 60), rendered as hours ":" mm ":" ss with the two
trailing fields zero-padded to width two. -/
def formatTimeQ (q : ℚ) : List Char :=
  let hours := pyIntT (pyFloorDiv q 3600)
  let minutes := pyIntT (pyFloorDiv (pyMod q 3600) 60)
  let secs := pyIntT (pyMod q 60)
  pyStr hours ++ ':' :: (pad2 minutes ++ ':' :: pad2 secs)

/-- `format_time` from soap_handler.py: negative or infinite input yields
the literal "00:00:00", otherwise the H:MM:SS rendering. -/
def format_time : PyFloatV → List Char
  | .inf => "00:00:00".toList
  | .neginf => "00:00:00".toList
  | .fin q => if q < 0 then "00:00:00".toList else formatTimeQ q

/-- `parse_time` from soap_handler.py: split on ':'; three parts parse as
H:MM:SS via `int()`, two parts as MM:SS, anything else falls back to
`float()` of the first part; any conversion error yields 0.0. -/
def parse_time (s : List Char) : ℚ :=
  match pySplit ':' s with
  | [a, b, c] =>
    match pyInt? a, pyInt? b, pyInt? c with
    | some h, some m, some sec => ((h * 3600 + m * 60 + sec : ℤ) : ℚ)
    | _, _, _ => 0
  | [a, b] =>
    match pyInt? a, pyInt? b with
    | some m, some sec => ((m * 60 + sec : ℤ) : ℚ)
    | _, _ => 0
  | parts =>
    match pyFloat? (parts.headD []) with
    | some q => q
    | none => 0

/-! ## Playback Bridge replies (src/player/mpv_controller.py)

One IPC round trip either times out / errors (no response, `none`) or
yields a JSON object with an `error` field and optional `data`. -/

structure MpvResponse where
  error : String
  data : Option ℚ
deriving DecidableEq

/-- The engine's reply to one command; `none` models a timeout, an I/O
error, or an empty read. -/
abbrev EngineReply := Option MpvResponse

/-- The test `response and response.get('error') == 'success'`. -/
def replyOk : EngineReply → Bool
  | some resp => resp.error == "success"
  | none => false

/-- `_get_property`: the data payload of a successful reply, else None. -/
def getProp : EngineReply → Option ℚ
  | some resp => if resp.error = "success" then resp.data else none
  | none => none

/-- Mutable fields of `MPVController` relevant to the playback session
(`current_url`, `current_state`, `current_volume`, `current_position`,
`current_duration`).  The state field keeps the source's string values
"STOPPED", "PLAYING", "PAUSED_PLAYBACK", "TRANSITIONING". -/
structure MpvState where
  url : Option String
  state : String
  volume : ℤ
  position : ℚ
  duration : ℚ
deriving DecidableEq

/-- `MPVController.play`: set TRANSITIONING and the url, issue loadfile;
on success PLAYING, otherwise STOPPED with a False result. -/
def mpvPlay (u : String) (st : MpvState) (r : EngineReply) : Bool × MpvState :=
  let st1 := { st with state := "TRANSITIONING", url := some u }
  if replyOk r then (true, { st1 with state := "PLAYING" })
  else (false, { st1 with state := "STOPPED" })

/-- `MPVController.pause`: set the pause property; on success the state
becomes PAUSED_PLAYBACK. -/
def mpvPause (st : MpvState) (r : EngineReply) : Bool × MpvState :=
  if replyOk r then (true, { st with state := "PAUSED_PLAYBACK" })
  else (false, st)

/-- `MPVController.resume`: clear the pause property; on success PLAYING. -/
def mpvResume (st : MpvState) (r : EngineReply) : Bool × MpvState :=
  if replyOk r then (true, { st with state := "PLAYING" })
  else (false, st)

/-- `MPVController.stop`: issue stop, then unconditionally reset the state
to STOPPED and clear url, position and duration; always returns True. -/
def mpvStop (st : MpvState) (r : EngineReply) : Bool × MpvState :=
  let _ := r
  (true, { st with state := "STOPPED", url := none, position := 0, duration := 0 })

/-- The clamp `max(0, min(100, level))` in `MPVController.set_volume`. -/
def clampLevel (level : ℤ) : ℤ := max 0 (min 100 level)

/-- `MPVController.set_volume`: clamp, send the clamped level, and record
it in the session only on success.  The first component is the level
actually carried by the outgoing `set_property volume` command. -/
def mpvSetVolume (level : ℤ) (st : MpvState) (r : EngineReply) :
    ℤ × Bool × MpvState :=
  let lv := clampLevel level
  if replyOk r then (lv, true, { st with volume := lv })
  else (lv, false, st)

/-- `MPVController.get_volume`: query the volume property; a successful
reply with data replaces the cached volume via `int()`, otherwise the
cached value is returned. -/
def mpvGetVolume (st : MpvState) (r : EngineReply) : ℤ × MpvState :=
  match getProp r with
  | some q => (pyIntT q, { st with volume := pyIntT q })
  | none => (st.volume, st)

/-- `MPVController.get_position`. -/
def mpvGetPosition (st : MpvState) (r : EngineReply) : ℚ × MpvState :=
  match getProp r with
  | some q => (q, { st with position := q })
  | none => (st.position, st)

/-- `MPVController.get_duration`. -/
def mpvGetDuration (st : MpvState) (r : EngineReply) : ℚ × MpvState :=
  match getProp r with
  | some q => (q, { st with duration := q })
  | none => (st.duration, st)

/-- `MPVController.seek`: absolute seek, recording the position
optimistically on success. -/
def mpvSeek (pos : ℚ) (st : MpvState) (r : EngineReply) : Bool × MpvState :=
  if replyOk r then (true, { st with position := pos })
  else (false, st)

/-- The dictionary returned by `MPVController.get_status`. -/
structure MpvStatus where
  state : String
  url : Option String
  volume : ℤ
  position : ℚ
  duration : ℚ
deriving DecidableEq

/-- `MPVController.get_status`: refresh position and duration from the
engine only while PLAYING, then report the cached fields. -/
def mpvGetStatus (st : MpvState) (posR durR : EngineReply) :
    MpvStatus × MpvState :=
  let st2 :=
    if st.state = "PLAYING" then
      (mpvGetDuration (mpvGetPosition st posR).2 durR).2
    else st
  (⟨st2.state, st2.url, st2.volume, st2.position, st2.duration⟩, st2)

/-- One engine reply per distinct IPC command an action handler may issue
during a single dispatched action. -/
structure EngineEnv where
  loadfile : EngineReply
  pauseProp : EngineReply
  stopCmd : EngineReply
  seekCmd : EngineReply
  volSet : EngineReply
  volGet : EngineReply
  posGet : EngineReply
  durGet : EngineReply
deriving DecidableEq

/-- An environment in which every engine exchange fails (no reply). -/
def silentEnv : EngineEnv := ⟨none, none, none, none, none, none, none, none⟩

/-! ## Control Services (src/services/) -/

/-- Ordered action arguments and ordered response arguments (a Python
dict with insertion order preserved). -/
abbrev SOAPArgs := List (String × String)

/-- `dict.get(key, default)`. -/
def argsGet (args : SOAPArgs) (k dflt : String) : String :=
  ((args.find? (fun p => p.1 = k)).map Prod.snd).getD dflt

/-- A handler either returns response arguments or raises an exception
carrying a message (the `str(e)` later placed in the fault). -/
abbrev ActionResult := Except String SOAPArgs

/-- `AVTransportService` mutable state: the stored transport URI and its
metadata. -/
structure AVState where
  current_uri : String
  current_uri_metadata : String
deriving DecidableEq

/-- `_handle_SetAVTransportURI`: store URI and metadata, do not play. -/
def avSetURI (args : SOAPArgs) (av : AVState) (mpv : MpvState) :
    ActionResult × AVState × MpvState :=
  (.ok [], ⟨argsGet args "CurrentURI" "", argsGet args "CurrentURIMetaData" ""⟩, mpv)

/-- `_handle_Play`: raise "No URI set" when no URI is stored; otherwise
play and raise "Failed to start playback" when the engine call fails. -/
def avPlay (av : AVState) (mpv : MpvState) (env : EngineEnv) :
    ActionResult × AVState × MpvState :=
  if av.current_uri = "" then (.error "No URI set", av, mpv)
  else
    let (success, mpv1) := mpvPlay av.current_uri mpv env.loadfile
    if success then (.ok [], av, mpv1)
    else (.error "Failed to start playback", av, mpv1)

/-- `_handle_Pause`: issue pause, ignore its result. -/
def avPause (av : AVState) (mpv : MpvState) (env : EngineEnv) :
    ActionResult × AVState × MpvState :=
  (.ok [], av, (mpvPause mpv env.pauseProp).2)

/-- `_handle_Stop`: issue stop, ignore its result. -/
def avStop (av : AVState) (mpv : MpvState) (env : EngineEnv) :
    ActionResult × AVState × MpvState :=
  (.ok [], av, (mpvStop mpv env.stopCmd).2)

/-- `_handle_Seek`: for ABS_TIME or REL_TIME targets, convert the target
through `parse_time` and seek; other units are ignored.  Never raises. -/
def avSeek (args : SOAPArgs) (av : AVState) (mpv : MpvState) (env : EngineEnv) :
    ActionResult × AVState × MpvState :=
  let unit := argsGet args "Unit" "ABS_TIME"
  let target := argsGet args "Target" "00:00:00"
  if unit = "ABS_TIME" ∨ unit = "REL_TIME" then
    (.ok [], av, (mpvSeek (parse_time target.toList) mpv env.seekCmd).2)
  else (.ok [], av, mpv)

/-- `_handle_GetTransportInfo`. -/
def avGetTransportInfo (av : AVState) (mpv : MpvState) (env : EngineEnv) :
    ActionResult × AVState × MpvState :=
  let (stt, mpv1) := mpvGetStatus mpv env.posGet env.durGet
  (.ok [("CurrentTransportState", stt.state),
        ("CurrentTransportStatus", "OK"),
        ("CurrentSpeed", "1")], av, mpv1)

/-- `_handle_GetPositionInfo`. -/
def avGetPositionInfo (av : AVState) (mpv : MpvState) (env : EngineEnv) :
    ActionResult × AVState × MpvState :=
  let (stt, mpv1) := mpvGetStatus mpv env.posGet env.durGet
  (.ok [("Track", "1"),
        ("TrackDuration", (format_time (.fin stt.duration)).asString),
        ("TrackMetaData", av.current_uri_metadata),
        ("TrackURI", av.current_uri),
        ("RelTime", (format_time (.fin stt.position)).asString),
        ("AbsTime", (format_time (.fin stt.position)).asString),
        ("RelCount", "0"),
        ("AbsCount", "0")], av, mpv1)

/-- `_handle_GetMediaInfo`. -/
def avGetMediaInfo (av : AVState) (mpv : MpvState) (env : EngineEnv) :
    ActionResult × AVState × MpvState :=
  let (stt, mpv1) := mpvGetStatus mpv env.posGet env.durGet
  (.ok [("NrTracks", "1"),
        ("MediaDuration", (format_time (.fin stt.duration)).asString),
        ("CurrentURI", av.current_uri),
        ("CurrentURIMetaData", av.current_uri_metadata),
        ("NextURI", ""),
        ("NextURIMetaData", ""),
        ("PlayMedium", "NETWORK"),
        ("RecordMedium", "NOT_IMPLEMENTED"),
        ("WriteStatus", "NOT_IMPLEMENTED")], av, mpv1)

/-- `AVTransportService.handle_action`: dispatch over the closed action
set; any other name raises "Unknown action: name". -/
def avHandleAction (action : String) (args : SOAPArgs) (env : EngineEnv)
    (av : AVState) (mpv : MpvState) : ActionResult × AVState × MpvState :=
  if action = "SetAVTransportURI" then avSetURI args av mpv
  else if action = "Play" then avPlay av mpv env
  else if action = "Pause" then avPause av mpv env
  else if action = "Stop" then avStop av mpv env
  else if action = "Seek" then avSeek args av mpv env
  else if action = "GetTransportInfo" then avGetTransportInfo av mpv env
  else if action = "GetPositionInfo" then avGetPositionInfo av mpv env
  else if action = "GetMediaInfo" then avGetMediaInfo av mpv env
  else (.error ("Unknown action: " ++ action), av, mpv)

/-- `RenderingControlService` mutable state: the mute flag, and the
snapshot attribute `volume_before_mute` (`none` models the attribute
never having been assigned, the `hasattr` test in the source). -/
structure RCState where
  muted : Bool
  volume_before_mute : Option ℤ
deriving DecidableEq

/-- `_handle_GetVolume`. -/
def rcGetVolume (rc : RCState) (mpv : MpvState) (env : EngineEnv) :
    ActionResult × RCState × MpvState :=
  let (v, mpv1) := mpvGetVolume mpv env.volGet
  (.ok [("CurrentVolume", (pyStr v).asString)], rc, mpv1)

/-- `_handle_SetVolume`: `int()` of the DesiredVolume argument (default
'50'); a conversion failure raises, which the gateway turns into a 501
fault; otherwise delegate to `set_volume`. -/
def rcSetVolume (args : SOAPArgs) (rc : RCState) (mpv : MpvState) (env : EngineEnv) :
    ActionResult × RCState × MpvState :=
  match pyInt? (argsGet args "DesiredVolume" "50").toList with
  | some v => (.ok [], rc, (mpvSetVolume v mpv env.volSet).2.2)
  | none => (.error "invalid literal for int with base 10", rc, mpv)

/-- `_handle_GetMute`. -/
def rcGetMute (rc : RCState) (mpv : MpvState) :
    ActionResult × RCState × MpvState :=
  (.ok [("CurrentMute", if rc.muted then "1" else "0")], rc, mpv)

/-- `_handle_SetMute`: muting snapshots the engine volume into
`volume_before_mute` and forces volume 0; unmuting restores the snapshot
when the attribute exists, else touches nothing.  Never raises. -/
def rcSetMute (args : SOAPArgs) (rc : RCState) (mpv : MpvState) (env : EngineEnv) :
    ActionResult × RCState × MpvState :=
  let desired := argsGet args "DesiredMute" "0"
  if desired = "1" ∨ desired = "true" ∨ desired = "True" then
    let (v, mpv1) := mpvGetVolume mpv env.volGet
    (.ok [], ⟨true, some v⟩, (mpvSetVolume 0 mpv1 env.volSet).2.2)
  else
    match rc.volume_before_mute with
    | some vb => (.ok [], ⟨false, some vb⟩, (mpvSetVolume vb mpv env.volSet).2.2)
    | none => (.ok [], ⟨false, none⟩, mpv)

/-- `RenderingControlService.handle_action`. -/
def rcHandleAction (action : String) (args : SOAPArgs) (env : EngineEnv)
    (rc : RCState) (mpv : MpvState) : ActionResult × RCState × MpvState :=
  if action = "GetVolume" then rcGetVolume rc mpv env
  else if action = "SetVolume" then rcSetVolume args rc mpv env
  else if action = "GetMute" then rcGetMute rc mpv
  else if action = "SetMute" then rcSetMute args rc mpv env
  else (.error ("Unknown action: " ++ action), rc, mpv)

/-- The fixed sink protocol list of `ConnectionManagerService`. -/
def PROTOCOL_INFO : String :=
  "http-get:*:audio/mpeg:*," ++
  "http-get:*:audio/mp3:*," ++
  "http-get:*:audio/mp4:*," ++
  "http-get:*:audio/x-m4a:*," ++
  "http-get:*:audio/aac:*," ++
  "http-get:*:audio/flac:*," ++
  "http-get:*:audio/x-flac:*," ++
  "http-get:*:audio/ogg:*," ++
  "http-get:*:audio/vorbis:*," ++
  "http-get:*:audio/wav:*," ++
  "http-get:*:audio/x-wav:*," ++
  "http-get:*:audio/L16:*," ++
  "http-get:*:application/ogg:*"

/-- `ConnectionManagerService.handle_action`: three stateless queries;
any other name raises "Unknown action: name". -/
def cmHandleAction (action : String) (args : SOAPArgs) : ActionResult :=
  let _ := args
  if action = "GetProtocolInfo" then
    .ok [("Source", ""), ("Sink", PROTOCOL_INFO)]
  else if action = "GetCurrentConnectionIDs" then
    .ok [("ConnectionIDs", "0")]
  else if action = "GetCurrentConnectionInfo" then
    .ok [("RcsID", "0"), ("AVTransportID", "0"), ("ProtocolInfo", ""),
         ("PeerConnectionManager", ""), ("PeerConnectionID", "-1"),
         ("Direction", "Input"), ("Status", "OK")]
  else .error ("Unknown action: " ++ action)

/-- The closed action sets of the three services (spec section 4.3). -/
inductive ServiceKind where
  | avtransport
  | rendering
  | connection
deriving DecidableEq

/-- The closed action set of each service, as listed by the spec. -/
def closedActions : ServiceKind → List String
  | .avtransport =>
    ["SetAVTransportURI", "Play", "Pause", "Stop", "Seek",
     "GetTransportInfo", "GetPositionInfo", "GetMediaInfo"]
  | .rendering => ["GetVolume", "SetVolume", "GetMute", "SetMute"]
  | .connection =>
    ["GetProtocolInfo", "GetCurrentConnectionIDs", "GetCurrentConnectionInfo"]

/-! ## Control Gateway (src/http_server.py do_POST) -/

/-- The whole mutable state reachable from one POST dispatch. -/
structure Sys where
  av : AVState
  rc : RCState
  mpv : MpvState
deriving DecidableEq

/-- Route an action to the service owning the request path and thread the
shared state through it. -/
def dispatch (svc : ServiceKind) (action : String) (args : SOAPArgs)
    (env : EngineEnv) (sys : Sys) : ActionResult × Sys :=
  match svc with
  | .avtransport =>
    let (r, av1, mpv1) := avHandleAction action args env sys.av sys.mpv
    (r, { sys with av := av1, mpv := mpv1 })
  | .rendering =>
    let (r, rc1, mpv1) := rcHandleAction action args env sys.rc sys.mpv
    (r, { sys with rc := rc1, mpv := mpv1 })
  | .connection => (cmHandleAction action args, sys)

/-- A parsed control envelope (`parse_soap_request` result). -/
structure SOAPRequest where
  action : String
  args : SOAPArgs
deriving DecidableEq

/-- Outcome of one POST: an HTTP 200 success envelope with response
arguments, or an HTTP 500 SOAP fault with a UPnP error code and
description. -/
inductive POSTResult where
  | success (status : ℕ) (args : SOAPArgs)
  | fault (status code : ℕ) (desc : String)
deriving DecidableEq

/-- The UPnP error code of a fault outcome, if any. -/
def faultCode : POSTResult → Option ℕ
  | .fault _ c _ => some c
  | .success _ _ => none

/-- `UPnPHTTPRequestHandler.do_POST` past body reading and path routing:
an unparseable body yields the 401 "Invalid Action" fault; otherwise the
action is dispatched and any raised exception becomes a 501 fault
carrying the exception message. -/
def doPOST (svc : ServiceKind) (parsed : Option SOAPRequest)
    (env : EngineEnv) (sys : Sys) : POSTResult × Sys :=
  match parsed with
  | none => (.fault 500 401 "Invalid Action", sys)
  | some req =>
    match dispatch svc req.action req.args env sys with
    | (.ok resp, sys1) => (.success 200 resp, sys1)
    | (.error msg, sys1) => (.fault 500 501 msg, sys1)

/-! ## Discovery Engine (src/ssdp_server.py) -/

/-- The header fields of one unicast M-SEARCH response
(`_send_msearch_response`). -/
structure MSearchResponse where
  cacheControl : String
  location : String
  st : List Char
  usn : List Char
deriving DecidableEq

/-- Build the response for an accepted search target. -/
def mkMSearchResponse (uuid loc : String) (st : List Char) : MSearchResponse :=
  ⟨"max-age=1800", loc, st, ("uuid:" ++ uuid).toList ++ "::".toList ++ st⟩

/-- The value of the first line starting with "ST:", stripped
(`line.split(':', 1)[1].strip()` under the `startswith('ST:')` guard). -/
def stOf (line : List Char) : Option (List Char) :=
  match line with
  | 'S' :: 'T' :: ':' :: rest => some (pyStrip rest)
  | _ => none

/-- Extract the search target from a datagram: split on CR LF and take
the first ST: header. -/
def extractST (msg : List Char) : Option (List Char) :=
  (splitCRLF msg).findSome? stOf

/-- The targets this device answers, in source order. -/
def acceptedTargets (uuid : String) : List (List Char) :=
  ["ssdp:all", "upnp:rootdevice", "uuid:" ++ uuid,
   "urn:schemas-upnp-org:device:MediaRenderer:1",
   "urn:schemas-upnp-org:service:AVTransport:1",
   "urn:schemas-upnp-org:service:RenderingControl:1",
   "urn:schemas-upnp-org:service:ConnectionManager:1"].map String.toList

/-- `_handle_msearch`: the list of responses sent for one datagram
(empty, or one response echoing the accepted target). -/
def handleMsearch (uuid loc : String) (msg : List Char) : List MSearchResponse :=
  match extractST msg with
  | none => []
  | some st =>
    if st = [] then []
    else if st = "ssdp:all".toList ∨ st = "upnp:rootdevice".toList ∨
        st = ("uuid:" ++ uuid).toList ∨
        st = "urn:schemas-upnp-org:device:MediaRenderer:1".toList ∨
        st = "urn:schemas-upnp-org:service:AVTransport:1".toList ∨
        st = "urn:schemas-upnp-org:service:RenderingControl:1".toList ∨
        st = "urn:schemas-upnp-org:service:ConnectionManager:1".toList then
      [mkMSearchResponse uuid loc st]
    else []

/-- One NOTIFY advertisement (`_send_notify`). -/
structure SSDPNotify where
  nt : String
  nts : String
  location : String
  usn : String
deriving DecidableEq

/-- Build one NOTIFY message's header fields. -/
def mkNotify (uuid loc nt nts : String) : SSDPNotify :=
  ⟨nt, nts, loc, "uuid:" ++ uuid ++ "::" ++ nt⟩

/-- The notification types advertised by `_send_alive`. -/
def aliveTypes (uuid : String) : List String :=
  ["upnp:rootdevice", "uuid:" ++ uuid,
   "urn:schemas-upnp-org:device:MediaRenderer:1",
   "urn:schemas-upnp-org:service:AVTransport:1",
   "urn:schemas-upnp-org:service:RenderingControl:1",
   "urn:schemas-upnp-org:service:ConnectionManager:1"]

/-- The notification types withdrawn by `_send_byebye`. -/
def byebyeTypes (uuid : String) : List String :=
  ["upnp:rootdevice", "uuid:" ++ uuid,
   "urn:schemas-upnp-org:device:MediaRenderer:1"]

/-- `_send_alive`: one ssdp:alive NOTIFY per advertised type. -/
def ssdpSendAlive (uuid loc : String) : List SSDPNotify :=
  (aliveTypes uuid).map (fun nt => mkNotify uuid loc nt "ssdp:alive")

/-- `_send_byebye`: one ssdp:byebye NOTIFY per entry of its own list. -/
def ssdpSendByebye (uuid loc : String) : List SSDPNotify :=
  (byebyeTypes uuid).map (fun nt => mkNotify uuid loc nt "ssdp:byebye")

/-! ## Playback Bridge request ids (MPVController._send_command) -/

/-- Bridge correlation state: the last issued request id and whether the
IPC socket is currently open. -/
structure BridgeState where
  requestId : ℕ
  sockOpen : Bool
deriving DecidableEq

/-- The environment of one `_send_command` call: whether a fresh connect
would succeed, and whether the exchange hits an I/O error that closes the
socket.  (The reply payload is irrelevant to id assignment.) -/
structure SendInput where
  connectOk : Bool
  ioError : Bool
deriving DecidableEq

/-- One `_send_command` call: with no socket and a failing connect,
return without issuing anything; otherwise increment the id and attach it
to the outgoing command. -/
def sendCommandStep (st : BridgeState) (inp : SendInput) :
    Option ℕ × BridgeState :=
  if st.sockOpen || inp.connectOk then
    (some (st.requestId + 1), ⟨st.requestId + 1, !inp.ioError⟩)
  else (none, ⟨st.requestId, false⟩)

/-- The request ids attached to the commands actually issued over a
sequence of `_send_command` calls. -/
def issuedIds (st : BridgeState) : List SendInput → List ℕ
  | [] => []
  | inp :: rest =>
    match sendCommandStep st inp with
    | (some rid, st1) => rid :: issuedIds st1 rest
    | (none, st1) => issuedIds st1 rest

/-! ## Sample states for concrete runs -/

/-- A successful engine reply carrying an optional data payload. -/
def okReply (d : Option ℚ) : EngineReply := some ⟨"success", d⟩

/-- The shared state right after startup: no URI, not muted, no mute
snapshot, player stopped with the default volume 50. -/
def initSys : Sys := ⟨⟨"", ""⟩, ⟨false, none⟩, ⟨none, "STOPPED", 50, 0, 0⟩⟩

/-- An environment where volume exchanges succeed (the volume property
reads back 50) and every other command goes unanswered. -/
def muteEnv : EngineEnv :=
  ⟨none, none, none, none, okReply none, okReply (some 50), none, none⟩

/-- A concrete M-SEARCH datagram targeting the RenderingControl URN. -/
def sampleMsearch : List Char :=
  ("M-SEARCH * HTTP/1.1\r\nST: urn:schemas-upnp-org:service:RenderingControl:1\r\n\r\n").toList

/-- An environment where only the seek command is answered successfully. -/
def seekEnv : EngineEnv :=
  ⟨none, none, none, okReply none, none, none, none, none⟩

/-! ## C2: Stop unconditionally resets the session -/

/-- C2: from every starting state and under every engine response
(success, failure or none), dispatching Stop succeeds, leaves the session
STOPPED with URI, position and duration cleared, keeps the other state
untouched, and the underlying `stop` reports success to its caller. -/
theorem stop_always_resets (sys : Sys) (env : EngineEnv) (args : SOAPArgs)
    (st : MpvState) (r : EngineReply) :
    (doPOST .avtransport (some ⟨"Stop", args⟩) env sys).1 = .success 200 [] ∧
    (doPOST .avtransport (some ⟨"Stop", args⟩) env sys).2.mpv.state = "STOPPED" ∧
    (doPOST .avtransport (some ⟨"Stop", args⟩) env sys).2.mpv.url = none ∧
    (doPOST .avtransport (some ⟨"Stop", args⟩) env sys).2.mpv.position = 0 ∧
    (doPOST .avtransport (some ⟨"Stop", args⟩) env sys).2.mpv.duration = 0 ∧
    (doPOST .avtransport (some ⟨"Stop", args⟩) env sys).2.av = sys.av ∧
    (doPOST .avtransport (some ⟨"Stop", args⟩) env sys).2.rc = sys.rc ∧
    (mpvStop st r).1 = true := by
  simp [doPOST, dispatch, avHandleAction, avStop, mpvStop]

/-! ## C4: SetVolume clamps into [0,100] -/

/-- C4: for every integer passed to `set_volume`, the level carried by
the outgoing engine command is the clamp of the input into [0,100], and
the session volume invariant 0 ≤ volume ≤ 100 is preserved. -/
theorem setvolume_clamps (v : ℤ) (st : MpvState) (r : EngineReply) :
    0 ≤ (mpvSetVolume v st r).1 ∧ (mpvSetVolume v st r).1 ≤ 100 ∧
    (mpvSetVolume v st r).1 = max 0 (min 100 v) ∧
    (0 ≤ st.volume → st.volume ≤ 100 →
      0 ≤ (mpvSetVolume v st r).2.2.volume ∧
        (mpvSetVolume v st r).2.2.volume ≤ 100) := by
  by_cases h : replyOk r = true <;>
    simp [mpvSetVolume, clampLevel, h] <;>
    omega

/-- Witness for C4 at the out-of-range input 150 from the startup state. -/
theorem setvolume_clamps_witness :
    0 ≤ (mpvSetVolume 150 initSys.mpv none).2.2.volume ∧
      (mpvSetVolume 150 initSys.mpv none).2.2.volume ≤ 100 :=
  (setvolume_clamps 150 initSys.mpv none).2.2.2 (by decide) (by decide)

/-! ## C5: Play without a URI faults and changes nothing -/

/-- C5: when no transport URI is stored, dispatching Play produces the
"No URI set" fault and returns the whole shared state unchanged; inside
the service the handler raises before any engine call. -/
theorem play_without_uri_faults (sys : Sys) (env : EngineEnv) (args : SOAPArgs)
    (h : sys.av.current_uri = "") :
    doPOST .avtransport (some ⟨"Play", args⟩) env sys =
      (.fault 500 501 "No URI set", sys) ∧
    avPlay sys.av sys.mpv env = (.error "No URI set", sys.av, sys.mpv) := by
  have h2 : avPlay sys.av sys.mpv env = (.error "No URI set", sys.av, sys.mpv) := by
    simp [avPlay, h]
  exact ⟨by simp [doPOST, dispatch, avHandleAction, h2], h2⟩

/-- Witness for C5 at the startup state, where no URI has been set. -/
theorem play_without_uri_faults_witness :
    initSys.av.current_uri = "" ∧
    doPOST .avtransport (some ⟨"Play", []⟩) silentEnv initSys =
      (.fault 500 501 "No URI set", initSys) :=
  ⟨rfl, (play_without_uri_faults initSys silentEnv [] rfl).1⟩

/-! ## C6: mute then unmute restores the pre-mute volume -/

/-- Reading the volume leaves the cached volume equal to the value it
returns. -/
theorem mpvGetVolume_cache (st : MpvState) (r : EngineReply) :
    (mpvGetVolume st r).2.volume = (mpvGetVolume st r).1 := by
  unfold mpvGetVolume
  cases getProp r <;> simp

/-- C6: muting snapshots the volume v read from the engine and forces 0;
unmuting with no intervening SetVolume restores exactly v (when the two
volume writes reach the engine and v satisfies the session invariant);
and unmuting when no mute was ever set leaves the player state untouched
and is not an error. -/
theorem mute_unmute_restores (rc : RCState) (mpv : MpvState)
    (env1 env2 : EngineEnv) (v : ℤ)
    (hv : (mpvGetVolume mpv env1.volGet).1 = v) (h0 : 0 ≤ v) (h100 : v ≤ 100)
    (hs1 : replyOk env1.volSet = true) (hs2 : replyOk env2.volSet = true) :
    (rcSetMute [("DesiredMute", "1")] rc mpv env1).1 = .ok [] ∧
    (rcSetMute [("DesiredMute", "1")] rc mpv env1).2.2.volume = 0 ∧
    (rcSetMute [("DesiredMute", "0")]
        (rcSetMute [("DesiredMute", "1")] rc mpv env1).2.1
        (rcSetMute [("DesiredMute", "1")] rc mpv env1).2.2 env2).1 = .ok [] ∧
    (rcSetMute [("DesiredMute", "0")]
        (rcSetMute [("DesiredMute", "1")] rc mpv env1).2.1
        (rcSetMute [("DesiredMute", "1")] rc mpv env1).2.2 env2).2.2.volume = v ∧
    (∀ (rc2 : RCState) (mpv2 : MpvState) (env : EngineEnv) (args : SOAPArgs),
      rc2.volume_before_mute = none →
      argsGet args "DesiredMute" "0" ≠ "1" →
      argsGet args "DesiredMute" "0" ≠ "true" →
      argsGet args "DesiredMute" "0" ≠ "True" →
      rcSetMute args rc2 mpv2 env = (.ok [], ⟨false, none⟩, mpv2)) := by
  have hcv : clampLevel v = v := by
    unfold clampLevel
    omega
  rcases hg : mpvGetVolume mpv env1.volGet with ⟨gv, gst⟩
  have hgv : gv = v := by
    rw [hg] at hv
    exact hv
  have hgst : gst.volume = gv := by
    have := mpvGetVolume_cache mpv env1.volGet
    rw [hg] at this
    exact this
  subst hgv
  have e1 : rcSetMute [("DesiredMute", "1")] rc mpv env1 =
      (.ok [], ⟨true, some gv⟩, { gst with volume := 0 }) := by
    simp [rcSetMute, argsGet, hg, mpvSetVolume, hs1, clampLevel]
  have e2 : rcSetMute [("DesiredMute", "0")] ⟨true, some gv⟩
      { gst with volume := 0 } env2 =
      (.ok [], ⟨false, some gv⟩, { gst with volume := gv }) := by
    simp [rcSetMute, argsGet, mpvSetVolume, hs2, hcv]
  refine ⟨by rw [e1], by rw [e1], by rw [e1, e2], by rw [e1, e2], ?_⟩
  intro rc2 mpv2 env args hnone hd1 hd2 hd3
  simp [rcSetMute, hd1, hd2, hd3, hnone]

/-- Witness for C6: from the startup state with volume 50, mute then
unmute lands the engine volume back at 50. -/
theorem mute_unmute_restores_witness :
    (rcSetMute [("DesiredMute", "0")]
        (rcSetMute [("DesiredMute", "1")] ⟨false, none⟩ initSys.mpv muteEnv).2.1
        (rcSetMute [("DesiredMute", "1")] ⟨false, none⟩ initSys.mpv muteEnv).2.2
        muteEnv).2.2.volume = 50 :=
  (mute_unmute_restores ⟨false, none⟩ initSys.mpv muteEnv muteEnv 50
    (by decide) (by decide) (by decide) (by decide) (by decide)).2.2.2.1

/-! ## C7: M-SEARCH replies -/

/-- Every accepted search target is a non-empty string. -/
theorem acceptedTargets_ne_nil (uuid : String) :
    ∀ s ∈ acceptedTargets uuid, s ≠ [] := by
  intro s hs
  simp only [acceptedTargets, List.map_cons, List.map_nil, List.mem_cons,
    List.not_mem_nil, or_false] at hs
  rcases hs with h | h | h | h | h | h | h <;> subst h <;> simp [String.toList]

/-- C7: a datagram with no ST header gets no reply; one whose ST value is
in the accepted target set gets exactly one reply echoing that ST with
the device's location and max-age=1800; every other ST value gets no
reply. -/
theorem msearch_reply_exactly_for_accepted (uuid loc : String) (msg : List Char) :
    (extractST msg = none → handleMsearch uuid loc msg = []) ∧
    (∀ st, extractST msg = some st → st ∈ acceptedTargets uuid →
      handleMsearch uuid loc msg = [mkMSearchResponse uuid loc st] ∧
      (mkMSearchResponse uuid loc st).st = st ∧
      (mkMSearchResponse uuid loc st).location = loc ∧
      (mkMSearchResponse uuid loc st).cacheControl = "max-age=1800") ∧
    (∀ st, extractST msg = some st → st ∉ acceptedTargets uuid →
      handleMsearch uuid loc msg = []) := by
  refine ⟨?_, ?_, ?_⟩
  · intro h
    simp [handleMsearch, h]
  · intro st h hm
    have hne : st ≠ [] := acceptedTargets_ne_nil uuid st hm
    have hor : st = "ssdp:all".toList ∨ st = "upnp:rootdevice".toList ∨
        st = ("uuid:" ++ uuid).toList ∨
        st = "urn:schemas-upnp-org:device:MediaRenderer:1".toList ∨
        st = "urn:schemas-upnp-org:service:AVTransport:1".toList ∨
        st = "urn:schemas-upnp-org:service:RenderingControl:1".toList ∨
        st = "urn:schemas-upnp-org:service:ConnectionManager:1".toList := by
      simpa [acceptedTargets] using hm
    refine ⟨?_, rfl, rfl, rfl⟩
    simp only [handleMsearch, h, if_neg hne]
    rw [if_pos hor]
  · intro st h hm
    have hor : ¬(st = "ssdp:all".toList ∨ st = "upnp:rootdevice".toList ∨
        st = ("uuid:" ++ uuid).toList ∨
        st = "urn:schemas-upnp-org:device:MediaRenderer:1".toList ∨
        st = "urn:schemas-upnp-org:service:AVTransport:1".toList ∨
        st = "urn:schemas-upnp-org:service:RenderingControl:1".toList ∨
        st = "urn:schemas-upnp-org:service:ConnectionManager:1".toList) := by
      intro hc
      exact hm (by simpa [acceptedTargets] using hc)
    by_cases he : st = []
    · simp [handleMsearch, h, he]
    · simp only [handleMsearch, h]
      rw [if_neg he, if_neg hor]

/-- Witness for C7: the sample RenderingControl search yields exactly one
reply echoing its target. -/
theorem msearch_reply_witness :
    handleMsearch "abc" "http://h/d.xml" sampleMsearch =
      [mkMSearchResponse "abc" "http://h/d.xml"
        "urn:schemas-upnp-org:service:RenderingControl:1".toList] :=
  ((msearch_reply_exactly_for_accepted "abc" "http://h/d.xml" sampleMsearch).2.1
    "urn:schemas-upnp-org:service:RenderingControl:1".toList
    (by decide) (by decide)).1

/-! ## C8: byebye withdraws three types, not the advertised six -/

/-- C8 counterexample: with a concrete device identity, shutdown sends
three withdrawal notifications, and the AVTransport service URN that is
announced while alive is never withdrawn — the claim's "same set, six
notifications" is false. -/
theorem byebye_counterexample :
    (ssdpSendByebye "abc" "http://h/d.xml").length = 3 ∧
    "urn:schemas-upnp-org:service:AVTransport:1" ∈
      (ssdpSendAlive "abc" "http://h/d.xml").map SSDPNotify.nt ∧
    "urn:schemas-upnp-org:service:AVTransport:1" ∉
      (ssdpSendByebye "abc" "http://h/d.xml").map SSDPNotify.nt := by
  decide

/-- C8 amended: on shutdown the discovery engine emits exactly three
ssdp:byebye notifications — root device, device UUID and the
MediaRenderer device type, i.e. only the first three of the six types
announced while alive; the three service URNs are not withdrawn. -/
theorem byebye_sends_three (uuid loc : String) :
    (ssdpSendByebye uuid loc).map SSDPNotify.nt =
      ["upnp:rootdevice", "uuid:" ++ uuid,
       "urn:schemas-upnp-org:device:MediaRenderer:1"] ∧
    (ssdpSendByebye uuid loc).length = 3 ∧
    (ssdpSendByebye uuid loc).map SSDPNotify.nts =
      ["ssdp:byebye", "ssdp:byebye", "ssdp:byebye"] ∧
    (ssdpSendByebye uuid loc).map SSDPNotify.nt =
      ((ssdpSendAlive uuid loc).map SSDPNotify.nt).take 3 := by
  simp [ssdpSendByebye, ssdpSendAlive, byebyeTypes, aliveTypes, mkNotify]

/-! ## C9: request ids strictly increase and are never reused -/

/-- Issuing a command never decreases the stored request id. -/
theorem sendCommandStep_le (st : BridgeState) (inp : SendInput) :
    st.requestId ≤ (sendCommandStep st inp).2.requestId := by
  unfold sendCommandStep
  split <;> simp

/-- Every id issued from a state exceeds that state's stored id. -/
theorem issuedIds_lt (inps : List SendInput) :
    ∀ (st : BridgeState), ∀ i ∈ issuedIds st inps, st.requestId < i := by
  induction inps with
  | nil => intro st i hi; simp [issuedIds] at hi
  | cons inp rest ih =>
    intro st i hi
    by_cases hc : (st.sockOpen || inp.connectOk) = true
    · simp [issuedIds, sendCommandStep, hc] at hi
      rcases hi with hi | hi
      · omega
      · have := ih ⟨st.requestId + 1, !inp.ioError⟩ i hi
        simp at this
        omega
    · simp [issuedIds, sendCommandStep, hc] at hi
      have := ih ⟨st.requestId, false⟩ i hi
      simpa using this

/-- C9: across every sequence of `_send_command` calls, the ids attached
to issued commands are pairwise strictly increasing, hence never reused. -/
theorem requestIds_strictly_increasing (st : BridgeState) (inps : List SendInput) :
    List.Pairwise (· < ·) (issuedIds st inps) ∧ (issuedIds st inps).Nodup := by
  have main : ∀ (inps : List SendInput) (st : BridgeState),
      List.Pairwise (· < ·) (issuedIds st inps) := by
    intro inps
    induction inps with
    | nil => intro st; simp [issuedIds]
    | cons inp rest ih =>
      intro st
      by_cases hc : (st.sockOpen || inp.connectOk) = true
      · simp only [issuedIds, sendCommandStep, hc, if_true]
        refine List.Pairwise.cons ?_ (ih _)
        intro i hi
        have := issuedIds_lt rest ⟨st.requestId + 1, !inp.ioError⟩ i hi
        simp at this
        omega
      · simp only [issuedIds, sendCommandStep, hc, if_false]
        exact ih _
  exact ⟨main inps st, (main inps st).imp (fun h => ne_of_lt h)⟩

/-! ## C1: unknown actions fault with 501, not 401 -/

/-- C1 counterexample: dispatching the unknown Transport action
"Previous" produces a fault with UPnP error code 501 carrying the raised
message, not the claimed 401. -/
theorem unknown_action_counterexample :
    (doPOST .avtransport (some ⟨"Previous", []⟩) silentEnv initSys).1 =
      .fault 500 501 "Unknown action: Previous" ∧
    faultCode (doPOST .avtransport (some ⟨"Previous", []⟩) silentEnv initSys).1 ≠
      some 401 := by
  decide

/-- C1 amended: for every service, an action name outside the closed set
raises "Unknown action: name", which the HTTP layer returns — like every
other handler failure — as a fault with code 501 carrying the message;
code 401 ("Invalid Action") is produced exactly when the request body
fails to parse; and an engine failure on the known action Play yields a
501 fault carrying the underlying message. -/
theorem unknown_action_fault_codes :
    (∀ (svc : ServiceKind) (action : String) (args : SOAPArgs)
       (env : EngineEnv) (sys : Sys),
      action ∉ closedActions svc →
      doPOST svc (some ⟨action, args⟩) env sys =
        (.fault 500 501 ("Unknown action: " ++ action), sys)) ∧
    (∀ (svc : ServiceKind) (env : EngineEnv) (sys : Sys),
      doPOST svc none env sys = (.fault 500 401 "Invalid Action", sys)) ∧
    (∀ (args : SOAPArgs) (env : EngineEnv) (sys : Sys),
      sys.av.current_uri ≠ "" → replyOk env.loadfile = false →
      (doPOST .avtransport (some ⟨"Play", args⟩) env sys).1 =
        .fault 500 501 "Failed to start playback") := by
  refine ⟨?_, ?_, ?_⟩
  · intro svc action args env sys h
    cases svc <;>
      simp only [closedActions, List.mem_cons, List.mem_singleton,
        List.not_mem_nil, not_or, or_false] at h <;>
      simp [doPOST, dispatch, avHandleAction, rcHandleAction, cmHandleAction,
        h.1, h.2.1, h.2.2]
  · intro svc env sys
    rfl
  · intro args env sys h1 h2
    have h3 : avPlay sys.av sys.mpv env =
        (.error "Failed to start playback", sys.av,
          { sys.mpv with state := "STOPPED", url := some sys.av.current_uri }) := by
      simp [avPlay, mpvPlay, h1, h2]
    simp [doPOST, dispatch, avHandleAction, h3]

/-- Witness for C1 amended: a concrete unknown Rendering action faults
with code 501, and Play with a URI set but a dead engine faults with 501
carrying the playback failure message. -/
theorem unknown_action_fault_codes_witness :
    ("Previous" ∉ closedActions .rendering ∧
      doPOST .rendering (some ⟨"Previous", []⟩) silentEnv initSys =
        (.fault 500 501 "Unknown action: Previous", initSys)) ∧
    ((Sys.mk ⟨"http://x/y.mp3", ""⟩ ⟨false, none⟩
        ⟨none, "STOPPED", 50, 0, 0⟩).av.current_uri ≠ "" ∧
      (doPOST .avtransport (some ⟨"Play", []⟩) silentEnv
        (Sys.mk ⟨"http://x/y.mp3", ""⟩ ⟨false, none⟩
          ⟨none, "STOPPED", 50, 0, 0⟩)).1 =
        .fault 500 501 "Failed to start playback") :=
  ⟨⟨by decide,
    unknown_action_fault_codes.1 .rendering "Previous" [] silentEnv initSys (by decide)⟩,
   ⟨by decide,
    unknown_action_fault_codes.2.2 [] silentEnv _ (by decide) (by decide)⟩⟩

/-! ## Digit-string lemmas for the time codec -/

/-- Rendering a digit below ten produces a digit character. -/
theorem digitChar_isDigit : ∀ d, d < 10 → isDigitCh (digitChar d) = true := by
  decide

/-- The code point of a rendered digit below ten. -/
theorem digitChar_toNat : ∀ d, d < 10 → (digitChar d).toNat = 48 + d := by
  decide

/-- A digit character is not whitespace. -/
theorem isDigitCh_not_space {c : Char} (h : isDigitCh c = true) :
    isSpaceCh c = false := by
  simp only [isDigitCh, Bool.and_eq_true, decide_eq_true_eq] at h
  simp only [isSpaceCh, Bool.or_eq_false_iff, beq_eq_false_iff_ne, ne_eq,
    Bool.and_eq_false_iff, decide_eq_false_iff_not]
  omega

/-- A digit character is not a colon nor a sign character. -/
theorem isDigitCh_ne {c : Char} (h : isDigitCh c = true) :
    c ≠ ':' ∧ c ≠ '-' ∧ c ≠ '+' := by
  refine ⟨?_, ?_, ?_⟩ <;>
    · intro hc
      subst hc
      exact absurd h (by decide)

/-- dropWhile is the identity when no element satisfies the predicate. -/
theorem dropWhile_eq_self_of {p : Char → Bool} {l : List Char}
    (h : ∀ c ∈ l, p c = false) : l.dropWhile p = l := by
  cases l with
  | nil => rfl
  | cons a t => simp [List.dropWhile_cons, h a (List.mem_cons_self a t)]

/-- Stripping a string with no whitespace is the identity. -/
theorem pyStrip_eq_self {l : List Char} (h : ∀ c ∈ l, isSpaceCh c = false) :
    pyStrip l = l := by
  unfold pyStrip
  rw [dropWhile_eq_self_of h,
    dropWhile_eq_self_of (fun c hc => h c (List.mem_reverse.mp hc)),
    List.reverse_reverse]

/-- Stripping an all-digit string is the identity. -/
theorem all_digit_strip {l : List Char} (h : l.all isDigitCh = true) :
    pyStrip l = l :=
  pyStrip_eq_self (fun c hc => isDigitCh_not_space ((List.all_eq_true.mp h) c hc))

/-- The digit renderer emits only digit characters. -/
theorem natToCharsAux_all_digit :
    ∀ (fuel n : ℕ), (natToCharsAux fuel n).all isDigitCh = true := by
  intro fuel
  induction fuel with
  | zero => intro n; rfl
  | succ f ih =>
    intro n
    unfold natToCharsAux
    by_cases h : n = 0
    · simp [h]
    · simp [h, ih (n / 10), digitChar_isDigit (n % 10) (Nat.mod_lt n (by norm_num))]

/-- Folding the digit accumulator over a rendered number recovers the
number beneath the shifted accumulator. -/
theorem chVal_foldl : ∀ (fuel n a : ℕ), n ≤ fuel →
    List.foldl (fun a c => 10 * a + (c.toNat - 48)) a (natToCharsAux fuel n).reverse =
      a * 10 ^ (natToCharsAux fuel n).length + n := by
  intro fuel
  induction fuel with
  | zero =>
    intro n a h
    have hn : n = 0 := by omega
    subst hn
    simp [natToCharsAux]
  | succ f ih =>
    intro n a h
    by_cases hn : n = 0
    · subst hn
      simp [natToCharsAux]
    · have hdiv : n / 10 ≤ f := by
        have h1 : n / 10 < n := Nat.div_lt_self (Nat.pos_of_ne_zero hn) (by norm_num)
        omega
      unfold natToCharsAux
      rw [if_neg hn]
      simp only [List.reverse_cons, List.foldl_append, List.foldl_cons,
        List.foldl_nil, List.length_cons]
      rw [ih (n / 10) a hdiv,
        digitChar_toNat (n % 10) (Nat.mod_lt n (by norm_num))]
      have hsub : 48 + n % 10 - 48 = n % 10 := by omega
      rw [hsub, pow_succ]
      set L := (natToCharsAux f (n / 10)).length with hL
      set D := n / 10 with hD
      set M := n % 10 with hM
      have hnm : 10 * D + M = n := Nat.div_add_mod n 10
      rw [← hnm]
      ring

/-- Every rendered natural is an all-digit string. -/
theorem natToChars_all_digit (n : ℕ) : (natToChars n).all isDigitCh = true := by
  unfold natToChars
  by_cases h : n = 0
  · subst h
    decide
  · simp [h, List.all_reverse, natToCharsAux_all_digit]

/-- Rendered naturals are never empty. -/
theorem natToChars_ne_nil (n : ℕ) : natToChars n ≠ [] := by
  unfold natToChars
  by_cases h : n = 0
  · simp [h]
  · obtain ⟨m, rfl⟩ : ∃ m, n = m + 1 := ⟨n - 1, by omega⟩
    unfold natToCharsAux
    simp [h]

/-- The digit value of a rendered natural is the natural itself. -/
theorem chVal_natToChars (n : ℕ) : chVal (natToChars n) = n := by
  unfold natToChars chVal
  by_cases h : n = 0
  · subst h
    decide
  · rw [if_neg h]
    simpa using chVal_foldl n n 0 le_rfl

/-- A leading zero does not change the digit value. -/
theorem chVal_zero_cons (l : List Char) : chVal ('0' :: l) = chVal l := rfl

/-- Leading zeros do not change the digit value. -/
theorem chVal_replicate_zero : ∀ (k : ℕ) (l : List Char),
    chVal (List.replicate k '0' ++ l) = chVal l := by
  intro k
  induction k with
  | zero => intro l; rfl
  | succ m ih =>
    intro l
    rw [List.replicate_succ, List.cons_append, chVal_zero_cons, ih]

/-- pyDigits? on a non-empty all-digit string. -/
theorem pyDigits?_digits {l : List Char} (h : l ≠ []) (hd : l.all isDigitCh = true) :
    pyDigits? l = some (chVal l) := by
  simp [pyDigits?, h, hd]

/-- Python int() on a non-empty all-digit string. -/
theorem pyInt?_digits {l : List Char} (h : l ≠ []) (hd : l.all isDigitCh = true) :
    pyInt? l = some ((chVal l : ℤ)) := by
  unfold pyInt?
  rw [all_digit_strip hd]
  obtain ⟨c, r, rfl⟩ : ∃ c r, l = c :: r := by
    cases l with
    | nil => exact absurd rfl h
    | cons c r => exact ⟨c, r, rfl⟩
  have hc : isDigitCh c = true := (List.all_eq_true.mp hd) c (by simp)
  obtain ⟨-, h2, h3⟩ := isDigitCh_ne hc
  show (if c = '-' then (pyDigits? r).map (fun n => -(n : ℤ))
      else if c = '+' then (pyDigits? r).map (fun n => (n : ℤ))
      else (pyDigits? (c :: r)).map (fun n => (n : ℤ))) = some ((chVal (c :: r) : ℤ))
  rw [if_neg h2, if_neg h3, pyDigits?_digits h hd]
  rfl

/-- str() of a non-negative integer renders its natural value. -/
theorem pyStr_nonneg {i : ℤ} (h : 0 ≤ i) : pyStr i = natToChars i.toNat := by
  unfold pyStr
  rw [if_neg (by omega)]

/-- int() inverts str() on naturals. -/
theorem pyInt?_natToChars (n : ℕ) : pyInt? (natToChars n) = some (n : ℤ) := by
  rw [pyInt?_digits (natToChars_ne_nil n) (natToChars_all_digit n), chVal_natToChars]

/-- The zero-padded renderer for a non-negative integer. -/
theorem pad2_eq {i : ℤ} (h : 0 ≤ i) :
    pad2 i = List.replicate (2 - (natToChars i.toNat).length) '0' ++ natToChars i.toNat := by
  unfold pad2
  rw [pyStr_nonneg h]

/-- The zero-padded rendering is all digits. -/
theorem pad2_all_digit {i : ℤ} (h : 0 ≤ i) : (pad2 i).all isDigitCh = true := by
  rw [pad2_eq h, List.all_eq_true]
  intro c hc
  rcases List.mem_append.mp hc with h1 | h1
  · rw [List.eq_of_mem_replicate h1]
    decide
  · exact (List.all_eq_true.mp (natToChars_all_digit _)) c h1

/-- The zero-padded rendering is non-empty. -/
theorem pad2_ne_nil {i : ℤ} (h : 0 ≤ i) : pad2 i ≠ [] := by
  rw [pad2_eq h]
  intro hc
  rw [List.append_eq_nil] at hc
  exact natToChars_ne_nil _ hc.2

/-- int() inverts the zero-padded renderer on non-negative integers. -/
theorem pyInt?_pad2 {i : ℤ} (h : 0 ≤ i) : pyInt? (pad2 i) = some i := by
  rw [pyInt?_digits (pad2_ne_nil h) (pad2_all_digit h), pad2_eq h,
    chVal_replicate_zero, chVal_natToChars]
  simp [Int.toNat_of_nonneg h]

/-- int() inverts str() on non-negative integers. -/
theorem pyInt?_pyStr {i : ℤ} (h : 0 ≤ i) : pyInt? (pyStr i) = some i := by
  rw [pyStr_nonneg h, pyInt?_natToChars]
  simp [Int.toNat_of_nonneg h]

/-- All-digit strings contain no colon. -/
theorem no_colon_of_digits {l : List Char} (h : l.all isDigitCh = true) :
    ∀ c ∈ l, c ≠ ':' :=
  fun c hc => (isDigitCh_ne ((List.all_eq_true.mp h) c hc)).1

/-! ## Split lemmas -/

/-- A split never yields the empty list of parts. -/
theorem pySplit_ne_nil (sep : Char) (l : List Char) : pySplit sep l ≠ [] := by
  cases l with
  | nil => simp [pySplit]
  | cons c rest =>
    simp only [pySplit]
    rcases h : pySplit sep rest with _ | ⟨a, t⟩ <;>
      by_cases hc : c = sep <;>
      simp [hc]

/-- Splitting a separator-free string yields that single part. -/
theorem pySplit_no_sep {sep : Char} :
    ∀ {a : List Char}, (∀ c ∈ a, c ≠ sep) → pySplit sep a = [a] := by
  intro a
  induction a with
  | nil => intro _; rfl
  | cons c t ih =>
    intro h
    have ht := ih (fun x hx => h x (by simp [hx]))
    simp only [pySplit]
    rw [ht]
    simp [h c (List.mem_cons_self c t)]

/-- Splitting peels off a separator-free prefix before a separator. -/
theorem pySplit_append {sep : Char} :
    ∀ {a : List Char} (rest : List Char), (∀ c ∈ a, c ≠ sep) →
      pySplit sep (a ++ sep :: rest) = a :: pySplit sep rest := by
  intro a
  induction a with
  | nil =>
    intro rest _
    simp only [List.nil_append, pySplit]
    rcases hr : pySplit sep rest with _ | ⟨x, t⟩
    · exact absurd hr (pySplit_ne_nil sep rest)
    · simp
  | cons c t ih =>
    intro rest h
    have ht := ih rest (fun x hx => h x (by simp [hx]))
    simp only [List.cons_append, pySplit, List.append_eq]
    rw [ht]
    simp [h c (List.mem_cons_self c t)]

/-- Parsing a rendered H:MM:SS string recovers the three fields. -/
theorem parse_time_format (h m s : ℤ) (hh : 0 ≤ h) (hm : 0 ≤ m) (hs : 0 ≤ s) :
    parse_time (pyStr h ++ ':' :: (pad2 m ++ ':' :: pad2 s)) =
      ((h * 3600 + m * 60 + s : ℤ) : ℚ) := by
  have nch : ∀ c ∈ pyStr h, c ≠ ':' := by
    rw [pyStr_nonneg hh]
    exact no_colon_of_digits (natToChars_all_digit _)
  have ncm : ∀ c ∈ pad2 m, c ≠ ':' := no_colon_of_digits (pad2_all_digit hm)
  have ncs : ∀ c ∈ pad2 s, c ≠ ':' := no_colon_of_digits (pad2_all_digit hs)
  have esplit : pySplit ':' (pyStr h ++ ':' :: (pad2 m ++ ':' :: pad2 s)) =
      [pyStr h, pad2 m, pad2 s] := by
    rw [pySplit_append _ nch, pySplit_append _ ncm, pySplit_no_sep ncs]
  unfold parse_time
  rw [esplit]
  simp [pyInt?_pyStr hh, pyInt?_pad2 hm, pyInt?_pad2 hs]

/-! ## Floor arithmetic for the formatter -/

/-- Sandwich bounds linking the rational floor-division to the integer
floor. -/
theorem floor_sandwich (q : ℚ) (d : ℤ) (hd : 0 < d) :
    ⌊q / (d : ℚ)⌋ * d ≤ ⌊q⌋ ∧ ⌊q⌋ < (⌊q / (d : ℚ)⌋ + 1) * d := by
  have hdq : (0 : ℚ) < (d : ℚ) := by exact_mod_cast hd
  constructor
  · apply Int.le_floor.mpr
    push_cast
    have h1 := Int.floor_le (q / (d : ℚ))
    rw [le_div_iff₀ hdq] at h1
    exact h1
  · apply Int.floor_lt.mpr
    push_cast
    have h2 := Int.lt_floor_add_one (q / (d : ℚ))
    rw [div_lt_iff₀ hdq] at h2
    exact h2

/-- Floor of a division by 3600 equals integer division of the floor. -/
theorem floor_div_3600 (q : ℚ) : ⌊q / 3600⌋ = ⌊q⌋ / 3600 := by
  have h := floor_sandwich q 3600 (by norm_num)
  rw [show ((3600 : ℤ) : ℚ) = (3600 : ℚ) by norm_num] at h
  omega

/-- Floor of a division by 60 equals integer division of the floor. -/
theorem floor_div_60 (q : ℚ) : ⌊q / 60⌋ = ⌊q⌋ / 60 := by
  have h := floor_sandwich q 60 (by norm_num)
  rw [show ((60 : ℤ) : ℚ) = (60 : ℚ) by norm_num] at h
  omega

/-- Truncation of a non-negative integer cast is the integer. -/
theorem pyIntT_intCast {k : ℤ} (hk : 0 ≤ k) : pyIntT ((k : ℚ)) = k := by
  unfold pyIntT
  rw [if_neg (not_lt.mpr (by exact_mod_cast hk)), Int.floor_intCast]

/-- Truncation of a non-negative rational is its floor. -/
theorem pyIntT_of_nonneg {x : ℚ} (hx : 0 ≤ x) : pyIntT x = ⌊x⌋ := by
  unfold pyIntT
  rw [if_neg (not_lt.mpr hx)]

/-- The Python float modulo by 3600 is non-negative. -/
theorem pyMod_nonneg_3600 (q : ℚ) : 0 ≤ pyMod q 3600 := by
  unfold pyMod
  have h := Int.sub_floor_div_mul_nonneg q (show (0 : ℚ) < 3600 by norm_num)
  linarith [h]

/-- The Python float modulo by 60 is non-negative. -/
theorem pyMod_nonneg_60 (q : ℚ) : 0 ≤ pyMod q 60 := by
  unfold pyMod
  have h := Int.sub_floor_div_mul_nonneg q (show (0 : ℚ) < 60 by norm_num)
  linarith [h]

/-- The floor of the modulo by 3600 is the integer modulo of the floor. -/
theorem floor_pyMod_3600 (q : ℚ) : ⌊pyMod q 3600⌋ = ⌊q⌋ % 3600 := by
  unfold pyMod
  rw [floor_div_3600,
    show (3600 : ℚ) * ((⌊q⌋ / 3600 : ℤ) : ℚ) = (((3600 * (⌊q⌋ / 3600) : ℤ)) : ℚ) by
      push_cast; ring,
    Int.floor_sub_int]
  omega

/-- The floor of the modulo by 60 is the integer modulo of the floor. -/
theorem floor_pyMod_60 (q : ℚ) : ⌊pyMod q 60⌋ = ⌊q⌋ % 60 := by
  unfold pyMod
  rw [floor_div_60,
    show (60 : ℚ) * ((⌊q⌋ / 60 : ℤ) : ℚ) = (((60 * (⌊q⌋ / 60) : ℤ)) : ℚ) by
      push_cast; ring,
    Int.floor_sub_int]
  omega

/-- The hours field computed by the formatter. -/
theorem hours_eq (q : ℚ) (hq : 0 ≤ q) :
    pyIntT (pyFloorDiv q 3600) = ⌊q⌋ / 3600 := by
  unfold pyFloorDiv
  rw [pyIntT_intCast (Int.floor_nonneg.mpr (by positivity)), floor_div_3600]

/-- The minutes field computed by the formatter. -/
theorem minutes_eq (q : ℚ) :
    pyIntT (pyFloorDiv (pyMod q 3600) 60) = (⌊q⌋ % 3600) / 60 := by
  unfold pyFloorDiv
  rw [pyIntT_intCast
      (Int.floor_nonneg.mpr (div_nonneg (pyMod_nonneg_3600 q) (by norm_num))),
    floor_div_60, floor_pyMod_3600]

/-- The seconds field computed by the formatter. -/
theorem secs_eq (q : ℚ) : pyIntT (pyMod q 60) = ⌊q⌋ % 60 := by
  rw [pyIntT_of_nonneg (pyMod_nonneg_60 q), floor_pyMod_60]

/-! ## C3: second-granularity round trip of the time codec -/

/-- C3: for every finite non-negative value, parsing the formatted time
recovers the value rounded down to whole seconds; formatting a negative
or infinite value yields "00:00:00". -/
theorem format_parse_roundtrip :
    (∀ q : ℚ, 0 ≤ q → parse_time (format_time (.fin q)) = ((⌊q⌋ : ℤ) : ℚ)) ∧
    (∀ q : ℚ, q < 0 → format_time (.fin q) = "00:00:00".toList) ∧
    format_time .inf = "00:00:00".toList := by
  refine ⟨?_, ?_, rfl⟩
  · intro q hq
    have e : format_time (.fin q) = formatTimeQ q := by
      simp [format_time, not_lt.mpr hq]
    rw [e]
    unfold formatTimeQ
    rw [hours_eq q hq, minutes_eq q, secs_eq q]
    rw [parse_time_format _ _ _
      (Int.ediv_nonneg (Int.floor_nonneg.mpr hq) (by norm_num))
      (Int.ediv_nonneg (Int.emod_nonneg _ (by norm_num)) (by norm_num))
      (Int.emod_nonneg _ (by norm_num))]
    have harith : (⌊q⌋ / 3600) * 3600 + ((⌊q⌋ % 3600) / 60) * 60 + ⌊q⌋ % 60 = ⌊q⌋ := by
      omega
    exact_mod_cast harith
  · intro q hq
    simp [format_time, hq]

/-- Witness for C3 at the input 3725.5 seconds ("1:02:05"). -/
theorem format_parse_roundtrip_witness :
    (0 : ℚ) ≤ 7451 / 2 ∧
    parse_time (format_time (.fin (7451 / 2))) = ((⌊(7451 / 2 : ℚ)⌋ : ℤ) : ℚ) :=
  ⟨by norm_num, format_parse_roundtrip.1 (7451 / 2) (by norm_num)⟩

/-! ## C10: parse_time is total but not constantly zero on malformed input -/

/-- C10 counterexample: the wrongly delimited string "1:2:3:4" is not of
the form H:MM:SS, MM:SS, or a single numeric value, yet parse_time
returns 1.0 (the float value of its first part), not 0.0. -/
theorem parse_time_counterexample :
    parse_time ("1:2:3:4".toList) = 1 ∧ parse_time ("1:2:3:4".toList) ≠ 0 := by
  decide

/-- C10 amended: parse_time is total and never raises.  An input that
splits on ':' into exactly three or two parts returns 0.0 whenever some
part fails integer parsing; every other input returns the float value of
its first part, or 0.0 when that is not numeric.  Hence a Seek with a
malformed Target never faults, and seeks to position 0 whenever the
malformed target parses to 0. -/
theorem parse_time_total_malformed :
    (∀ (s a b c : List Char), pySplit ':' s = [a, b, c] →
      pyInt? a = none ∨ pyInt? b = none ∨ pyInt? c = none → parse_time s = 0) ∧
    (∀ (s a b : List Char), pySplit ':' s = [a, b] →
      pyInt? a = none ∨ pyInt? b = none → parse_time s = 0) ∧
    (∀ s : List Char, (pySplit ':' s).length ≠ 3 → (pySplit ':' s).length ≠ 2 →
      pyFloat? ((pySplit ':' s).headD []) = none → parse_time s = 0) ∧
    (∀ (args : SOAPArgs) (av : AVState) (mpv : MpvState) (env : EngineEnv),
      (avSeek args av mpv env).1 = .ok []) ∧
    (∀ (target : String) (av : AVState) (mpv : MpvState) (env : EngineEnv),
      parse_time target.toList = 0 → replyOk env.seekCmd = true →
      (avSeek [("Target", target)] av mpv env).2.2.position = 0) := by
  refine ⟨?_, ?_, ?_, ?_, ?_⟩
  · intro s a b c hsp hnone
    unfold parse_time
    rw [hsp]
    rcases ha : pyInt? a with _ | va <;>
      rcases hb : pyInt? b with _ | vb <;>
      rcases hc : pyInt? c with _ | vc <;>
      simp_all
  · intro s a b hsp hnone
    unfold parse_time
    rw [hsp]
    rcases ha : pyInt? a with _ | va <;>
      rcases hb : pyInt? b with _ | vb <;>
      simp_all
  · intro s h3 h2 hf
    unfold parse_time
    rcases hsp : pySplit ':' s with _ | ⟨a, _ | ⟨b, _ | ⟨c, _ | ⟨d, rest⟩⟩⟩⟩ <;>
      rw [hsp] at h3 h2 hf <;>
      simp_all
  · intro args av mpv env
    dsimp only [avSeek]
    split <;> rfl
  · intro target av mpv env hp hr
    simp only [String.toList] at hp
    simp [avSeek, argsGet, mpvSeek, hp, hr]

/-- Witness for C10: three-part input with a non-numeric field returns 0,
and a Seek with the malformed target "abc" lands the position at 0. -/
theorem parse_time_total_malformed_witness :
    (pySplit ':' "a:2:3".toList = ["a".toList, "2".toList, "3".toList] ∧
      pyInt? "a".toList = none ∧
      parse_time "a:2:3".toList = 0) ∧
    (parse_time "abc".toList = 0 ∧
      (avSeek [("Target", "abc")] ⟨"", ""⟩ initSys.mpv seekEnv).2.2.position = 0) :=
  ⟨⟨by decide, by decide,
    parse_time_total_malformed.1 ("a:2:3".toList) ("a".toList) ("2".toList)
      ("3".toList) (by decide) (Or.inl (by decide))⟩,
   ⟨by decide,
    parse_time_total_malformed.2.2.2.2 "abc" ⟨"", ""⟩ initSys.mpv seekEnv
      (by decide) (by decide)⟩⟩

end PiCast
